import Mathlib

/-
Verification of the therapeutic web-app front-end scripts.

The central component is the `SessionTimer` class (a Pomodoro-style
countdown): we embed its state and its start/pause/reset/tick/complete
methods as pure functions that also return the list of user-visible
side effects (notifications, display updates, the completion sound).
The browser scheduler is modelled by a validity predicate on operation
traces: a tick can only be delivered while the repeating interval is
active.  The remaining embedded pieces are the display formatting
(`updateDisplay` and the markup built by `init`), the local-storage
round-trips for mood and gentle-mode, the periodic reminder throttle,
the global AJAX error handler, and the progress-bar clamping.
-/

/-! ## The session timer -/

/-- State of the `SessionTimer` class.  `duration` and `remaining` are the
integer second counters `this.duration` and `this.remaining`; `isRunning`
is `this.isRunning`.  The `this.timerInterval` handle is split into
`intervalActive` (a repeating interval is currently scheduled, i.e.
`setInterval` was called and not yet cancelled by `clearInterval`) and
`intervalSet` (`this.timerInterval` is non-null, i.e. `setInterval` was
ever called; `clearInterval` does not null the field, and `pause` tests
this truthiness before notifying). -/
structure SessionTimer where
  duration : Int
  remaining : Int
  isRunning : Bool
  intervalActive : Bool
  intervalSet : Bool
deriving DecidableEq

/-- User-visible side effects emitted by the timer methods:
`notifStarted` is showNotification("Focus session started!", success),
`notifPaused` is showNotification("Session paused", warning),
`notifReset` is showNotification("Session reset", info),
`notifComplete` is the session-complete success notification,
`sound` is `playCompletionSound()`, and `display r` is an
`updateDisplay()` call made while `this.remaining = r`. -/
inductive Event where
  | notifStarted
  | notifPaused
  | notifReset
  | notifComplete
  | sound
  | display (remaining : Int)
deriving DecidableEq

/-- `constructor(duration = 25)`: stores `duration * 60` seconds, sets
`remaining` to the full duration, not running, `timerInterval = null`. -/
def SessionTimer.make (durationMinutes : Int) : SessionTimer :=
  { duration := durationMinutes * 60
    remaining := durationMinutes * 60
    isRunning := false
    intervalActive := false
    intervalSet := false }

/-- `pause()`: sets `isRunning = false`; if `this.timerInterval` is
truthy it calls `clearInterval` (deactivating the interval, but leaving
the field non-null) and shows the "Session paused" notification. -/
def SessionTimer.pause (s : SessionTimer) : SessionTimer × List Event :=
  let s1 : SessionTimer := { s with isRunning := false }
  if s1.intervalSet then
    ({ s1 with intervalActive := false }, [Event.notifPaused])
  else
    (s1, [])

/-- `start()`: guarded by `if (!this.isRunning)`; when not running it
sets `isRunning = true`, schedules the repeating tick interval
(`this.timerInterval = setInterval(...)`) and shows the started
notification.  When already running it does nothing at all. -/
def SessionTimer.start (s : SessionTimer) : SessionTimer × List Event :=
  if s.isRunning then
    (s, [])
  else
    ({ s with isRunning := true, intervalActive := true, intervalSet := true },
     [Event.notifStarted])

/-- `complete()`: calls `this.pause()`, shows the completion
notification, and plays the completion sound. -/
def SessionTimer.complete (s : SessionTimer) : SessionTimer × List Event :=
  let p := s.pause
  (p.1, p.2 ++ [Event.notifComplete, Event.sound])

/-- `tick()`: decrements `remaining`, calls `updateDisplay()`, and if
`remaining <= 0` calls `complete()`. -/
def SessionTimer.tick (s : SessionTimer) : SessionTimer × List Event :=
  let s1 : SessionTimer := { s with remaining := s.remaining - 1 }
  if s1.remaining ≤ 0 then
    let c := s1.complete
    (c.1, Event.display s1.remaining :: c.2)
  else
    (s1, [Event.display s1.remaining])

/-- `reset()`: calls `this.pause()`, restores `remaining = duration`,
calls `updateDisplay()`, and shows the reset notification. -/
def SessionTimer.reset (s : SessionTimer) : SessionTimer × List Event :=
  let p := s.pause
  let s2 : SessionTimer := { p.1 with remaining := p.1.duration }
  (s2, p.2 ++ [Event.display s2.remaining, Event.notifReset])

/-- The operations that can reach the timer: the three public methods
(wired to the buttons and keyboard shortcut) and a scheduler-delivered
tick. -/
inductive TimerOp where
  | start
  | pause
  | reset
  | tick
deriving DecidableEq

/-- Dispatch one operation. -/
def step (s : SessionTimer) : TimerOp → SessionTimer × List Event
  | TimerOp.start => s.start
  | TimerOp.pause => s.pause
  | TimerOp.reset => s.reset
  | TimerOp.tick => s.tick

/-- Scheduler model: a trace of operations is schedulable from `s` iff
every tick in it is delivered while the repeating interval is active
(the event loop only fires the `setInterval` callback while the interval
has not been cleared).  User operations are always available. -/
def validTrace (s : SessionTimer) : List TimerOp → Bool
  | [] => true
  | op :: ops =>
      (match op with
       | TimerOp.tick => s.intervalActive
       | _ => true) && validTrace (step s op).1 ops

/-- Run a trace, accumulating the emitted events in order. -/
def runTrace (s : SessionTimer) : List TimerOp → SessionTimer × List Event
  | [] => (s, [])
  | op :: ops =>
      let r1 := step s op
      let r2 := runTrace r1.1 ops
      (r2.1, r1.2 ++ r2.2)

/-- Recognises the completion notification among emitted events. -/
def isCompleteEvent : Event → Bool
  | Event.notifComplete => true
  | _ => false

/-- Number of completion notifications in a list of events. -/
def completions (evs : List Event) : Nat :=
  evs.countP isCompleteEvent

/-! ## Display formatting -/

/-- JavaScript `str.padStart(2, "0")`: prepend zeros until the length
reaches 2 (no change when the string is already at least 2 long). -/
def jsPadStart2 (str : String) : String :=
  if str.length < 2 then String.mk (List.replicate (2 - str.length) '0') ++ str
  else str

/-- JavaScript `r % 60` (a remainder that takes the sign of the
dividend), on integers. -/
def jsRem60 (r : Int) : Int :=
  if 0 ≤ r then r % 60 else -((-r) % 60)

/-- The minutes text written by `updateDisplay()`:
`Math.floor(this.remaining / 60).toString().padStart(2, "0")`. -/
def updateDisplayMinutes (remaining : Int) : String :=
  jsPadStart2 (toString (Int.fdiv remaining 60))

/-- The seconds text written by `updateDisplay()`:
`(this.remaining % 60).toString().padStart(2, "0")`. -/
def updateDisplaySeconds (remaining : Int) : String :=
  jsPadStart2 (toString (jsRem60 remaining))

/-- The full `minutes:seconds` text shown by `updateDisplay()`. -/
def updateDisplayStr (remaining : Int) : String :=
  updateDisplayMinutes remaining ++ ":" ++ updateDisplaySeconds remaining

/-- The display text produced by the markup template in `init()`:
`` `${Math.floor(this.duration / 60)}` `` followed by `:00`
(note: the template does not pad the minutes). -/
def timerMarkupDisplay (durationSeconds : Int) : String :=
  toString (Int.fdiv durationSeconds 60) ++ ":00"

/-- Modelled from the spec: "formatted as zero-padded minutes and
seconds" — a two-digit zero-padded decimal rendering of a number. -/
def twoDigitsSpec (n : Nat) : String :=
  (if n < 10 then "0" else "") ++ toString n

/-- Modelled from the spec: the displayed time as zero-padded minutes
and seconds of a non-negative remaining count. -/
def displaySpec (r : Nat) : String :=
  twoDigitsSpec (r / 60) ++ ":" ++ twoDigitsSpec (r % 60)

/-! ## Local storage -/

/-- Local storage: a string-keyed, string-valued map. -/
abbrev Store := String → Option String

/-- `localStorage.setItem(key, value)`. -/
def setItem (key value : String) (st : Store) : Store :=
  fun q => if q = key then some value else st q

/-- `localStorage.getItem(key)`. -/
def getItem (key : String) (st : Store) : Option String :=
  st key

/-- `saveMood(mood)`: stores the mood string unchanged under
`lastMood` and an ISO timestamp under `lastMoodTime`. -/
def saveMood (mood : String) (nowIso : String) (st : Store) : Store :=
  setItem "lastMoodTime" nowIso (setItem "lastMood" mood st)

/-- The read in `initializeMoodSelector`:
`localStorage.getItem("lastMood")`. -/
def loadLastMood (st : Store) : Option String :=
  getItem "lastMood" st

/-- JavaScript stringification of a boolean, as performed implicitly by
`localStorage.setItem("gentleMode", this.gentleMode)`. -/
def jsBoolString (b : Bool) : String :=
  if b then "true" else "false"

/-- `TherapeuticApp.toggleGentleMode()`: flips the flag and writes it to
storage; returns the new flag value and the new store. -/
def toggleGentleMode (gentleMode : Bool) (st : Store) : Bool × Store :=
  (!gentleMode, setItem "gentleMode" (jsBoolString (!gentleMode)) st)

/-- The read in the `TherapeuticApp` constructor:
`localStorage.getItem("gentleMode") === "true"`. -/
def readGentleMode (st : Store) : Bool :=
  getItem "gentleMode" st == some "true"

/-! ## Gentle reminders -/

/-- `TherapeuticApp.shouldShowReminder()`: reads `lastReminderTime`
(modelled as the parsed epoch-millis value, or `none` when the key is
absent); with a stored value it requires more than 30 minutes since
then, otherwise it returns true. -/
def shouldShowReminder (lastReminder : Option Int) (now : Int) : Bool :=
  match lastReminder with
  | some t => decide (now - t > 30 * 60 * 1000)
  | none => true

/-- The periodic loop in `setupGentleReminders`: at each 15-minute
firing time a reminder is shown iff `shouldShowReminder` approves.
Crucially, faithful to the source, nothing ever writes
`lastReminderTime`, so the stored value is the same at every firing. -/
def reminderShownTimes (lastReminder : Option Int) (fireTimes : List Int) : List Int :=
  fireTimes.filter (fun t => shouldShowReminder lastReminder t)

/-! ## AJAX error handler -/

/-- Notification styles used by `showNotification(message, type)` in
`therapy/js/main.js`. -/
inductive NotifLevel where
  | success
  | info
  | warning
  | danger
deriving DecidableEq

/-- The global `$(document).ajaxError` handler: maps the failing
response status to a fixed notification, and does nothing for any other
status. -/
def ajaxErrorNotification (status : Int) : Option (String × NotifLevel) :=
  if status = 401 then some ("Please log in to continue", NotifLevel.warning)
  else if status = 403 then some ("You don\x27t have permission to do that", NotifLevel.danger)
  else if status = 500 then some ("Server error. Please try again later.", NotifLevel.danger)
  else none

/-! ## Progress bars -/

/-- `updateProgressBar`: the per-activity bar moves to
`Math.min(currentProgress + 25, 100)`. -/
def updatedActivityProgress (currentProgress : Int) : Int :=
  min (currentProgress + 25) 100

/-- `updateProgressBar`: the overall bar moves to
`Math.min(overallCurrent + 5, 100)`. -/
def updatedOverallProgress (overallCurrent : Int) : Int :=
  min (overallCurrent + 5) 100

/-! ## Helper lemmas -/

/-- One tick always decrements `remaining` by exactly 1 (both on the
plain branch and on the completion branch, where `complete`/`pause` do
not touch `remaining`). -/
lemma tick_remaining (s : SessionTimer) : (s.tick).1.remaining = s.remaining - 1 := by
  unfold SessionTimer.tick SessionTimer.complete SessionTimer.pause
  by_cases h : s.remaining - 1 ≤ 0 <;> by_cases h2 : s.intervalSet <;> simp [h, h2]

/-- A tick never changes `duration`. -/
lemma tick_duration (s : SessionTimer) : (s.tick).1.duration = s.duration := by
  unfold SessionTimer.tick SessionTimer.complete SessionTimer.pause
  by_cases h : s.remaining - 1 ≤ 0 <;> by_cases h2 : s.intervalSet <;> simp [h, h2]

/-- Unfolding: validity of a trace beginning with a tick. -/
lemma validTrace_cons_tick (s : SessionTimer) (ops : List TimerOp) :
    validTrace s (TimerOp.tick :: ops) = (s.intervalActive && validTrace (s.tick).1 ops) := rfl

/-- Unfolding: validity of a trace beginning with a start (user
operations carry no scheduling condition). -/
lemma validTrace_cons_start (s : SessionTimer) (ops : List TimerOp) :
    validTrace s (TimerOp.start :: ops) = validTrace (s.start).1 ops :=
  Bool.true_and _

/-- Unfolding: running one operation then the rest of the trace. -/
lemma runTrace_cons (s : SessionTimer) (op : TimerOp) (ops : List TimerOp) :
    runTrace s (op :: ops) =
      ((runTrace (step s op).1 ops).1, (step s op).2 ++ (runTrace (step s op).1 ops).2) := rfl

/-- A tick taken with at least two seconds left just decrements and
redisplays. -/
lemma tick_of_pos (s : SessionTimer) (h : 1 < s.remaining) :
    s.tick = ({ s with remaining := s.remaining - 1 },
              [Event.display (s.remaining - 1)]) := by
  unfold SessionTimer.tick
  simp only []
  rw [if_neg (by simp; omega)]

/-- A tick taken with at most one second left decrements, redisplays,
and completes: the state stops running, the interval is cleared, and the
paused/complete notifications and the sound are emitted. -/
lemma tick_of_last (s : SessionTimer) (hset : s.intervalSet = true) (h : s.remaining - 1 ≤ 0) :
    s.tick = ({ s with remaining := s.remaining - 1, isRunning := false, intervalActive := false },
              [Event.display (s.remaining - 1), Event.notifPaused,
               Event.notifComplete, Event.sound]) := by
  simp [SessionTimer.tick, SessionTimer.complete, SessionTimer.pause, h, hset]

/-- Core countdown lemma: from a running state with an active interval
and `n ≤ remaining`, a run of `n` consecutive ticks is schedulable,
decrements `remaining` by exactly `n`, keeps running iff the countdown
has not reached zero, and emits the completion notification exactly when
`n` reaches `remaining` (and then exactly once). -/
lemma run_replicate_tick (n : Nat) :
    ∀ s : SessionTimer, s.isRunning = true → s.intervalActive = true →
      s.intervalSet = true → 1 ≤ s.remaining → (n : Int) ≤ s.remaining →
      validTrace s (List.replicate n TimerOp.tick) = true ∧
      (runTrace s (List.replicate n TimerOp.tick)).1.duration = s.duration ∧
      (runTrace s (List.replicate n TimerOp.tick)).1.remaining = s.remaining - (n : Int) ∧
      (runTrace s (List.replicate n TimerOp.tick)).1.isRunning = decide ((n : Int) < s.remaining) ∧
      (runTrace s (List.replicate n TimerOp.tick)).1.intervalActive
        = decide ((n : Int) < s.remaining) ∧
      (runTrace s (List.replicate n TimerOp.tick)).1.intervalSet = true ∧
      completions (runTrace s (List.replicate n TimerOp.tick)).2
        = (if (n : Int) = s.remaining then 1 else 0) := by
  induction n with
  | zero =>
      intro s hrun hact hset hrem _
      have h1 : (0 : Int) < s.remaining := by omega
      have h2 : ¬ ((0 : Int) = s.remaining) := by omega
      simp [List.replicate, validTrace, runTrace, completions, hrun, hact, hset, h1, h2]
  | succ k ih =>
      intro s hrun hact hset hrem hn
      rw [List.replicate_succ]
      by_cases hlast : s.remaining - 1 ≤ 0
      · have hr1 : s.remaining = 1 := by omega
        have hk0 : k = 0 := by push_cast at hn; omega
        subst hk0
        have htk := tick_of_last s hset hlast
        simp [validTrace_cons_tick, runTrace_cons, step, htk, hact, hset, hr1,
              List.replicate, validTrace, runTrace, completions, isCompleteEvent,
              List.countP_cons, List.countP_nil]
      · have hr2 : 2 ≤ s.remaining := by omega
        have htk : s.tick =
            ({ duration := s.duration, remaining := s.remaining - 1, isRunning := true,
               intervalActive := true, intervalSet := true },
             [Event.display (s.remaining - 1)]) := by
          rw [tick_of_pos s (by omega)]
          simp [hrun, hact, hset]
        have ih2 := ih
          { duration := s.duration, remaining := s.remaining - 1, isRunning := true,
            intervalActive := true, intervalSet := true }
          rfl rfl rfl (by simp; omega) (by simp; push_cast at hn; omega)
        simp only at ih2
        obtain ⟨ihv, ihd, ihr, ihrun, ihact, ihset, ihc⟩ := ih2
        refine ⟨?_, ?_, ?_, ?_, ?_, ?_, ?_⟩
        · rw [validTrace_cons_tick, htk]
          simp only [hact, Bool.true_and]
          exact ihv
        · rw [runTrace_cons]
          simp only [step, htk]
          rw [ihd]
        · rw [runTrace_cons]
          simp only [step, htk]
          rw [ihr]
          push_cast
          omega
        · rw [runTrace_cons]
          simp only [step, htk]
          rw [ihrun]
          apply decide_eq_decide.mpr
          push_cast
          omega
        · rw [runTrace_cons]
          simp only [step, htk]
          rw [ihact]
          apply decide_eq_decide.mpr
          push_cast
          omega
        · rw [runTrace_cons]
          simp only [step, htk]
          exact ihset
        · rw [runTrace_cons]
          simp only [step, htk]
          unfold completions
          rw [List.countP_append]
          have hc0 : List.countP isCompleteEvent [Event.display (s.remaining - 1)] = 0 := by
            simp [List.countP_cons, List.countP_nil, isCompleteEvent]
          rw [hc0]
          unfold completions at ihc
          rw [ihc]
          rw [if_congr (show ((k : Int) = s.remaining - 1) ↔ (((k + 1 : Nat) : Int) = s.remaining)
                from by push_cast; omega) rfl rfl]
          omega

/-- Scheduler bound: from a running state with an active interval, a
run of `n` consecutive ticks can only be schedulable when
`n ≤ remaining` — the completion on the final tick clears the interval,
so no further tick is ever delivered. -/
lemma replicate_tick_bound (n : Nat) :
    ∀ s : SessionTimer, s.intervalActive = true → s.intervalSet = true →
      1 ≤ s.remaining → validTrace s (List.replicate n TimerOp.tick) = true →
      (n : Int) ≤ s.remaining := by
  induction n with
  | zero =>
      intro s _ _ hrem _
      simp
      omega
  | succ k ih =>
      intro s hact hset hrem hv
      rw [List.replicate_succ, validTrace_cons_tick] at hv
      rw [Bool.and_eq_true] at hv
      by_cases hlast : s.remaining - 1 ≤ 0
      · rcases k with _ | k2
        · push_cast
          omega
        · exfalso
          have htk := tick_of_last s hset hlast
          rw [List.replicate_succ, validTrace_cons_tick, htk] at hv
          simp at hv
      · have htk := tick_of_pos s (by omega)
        rw [htk] at hv
        have hb := ih { s with remaining := s.remaining - 1 }
          (by simp [hact]) (by simp [hset]) (by simp; omega) hv.2
        simp only at hb
        push_cast
        omega

/-! ## Claims about the simpler features -/

/-- Claim C3: `reset()` from any state yields `remaining = duration` and
`running = false`, stops ticking (the interval is no longer active, so
no further tick is schedulable), leaves the configured duration
unchanged, and emits a display update showing the full duration.  The
hypothesis is the data invariant of every reachable state: an active
interval implies `timerInterval` is non-null. -/
theorem reset_restores_duration (s : SessionTimer)
    (hinv : s.intervalActive = true → s.intervalSet = true) :
    (s.reset).1.remaining = s.duration ∧
    (s.reset).1.isRunning = false ∧
    (s.reset).1.intervalActive = false ∧
    (s.reset).1.duration = s.duration ∧
    Event.display s.duration ∈ (s.reset).2 := by
  unfold SessionTimer.reset SessionTimer.pause
  by_cases hset : s.intervalSet
  · simp [hset]
  · have hact : s.intervalActive = false := by
      cases ha : s.intervalActive
      · rfl
      · exact absurd (hinv ha) (by simp [hset])
    simp [hset, hact]

/-- Witness for C3 at the freshly constructed 25-minute timer. -/
theorem reset_restores_duration_witness :
    ((SessionTimer.make 25).reset).1.remaining = (SessionTimer.make 25).duration ∧
    ((SessionTimer.make 25).reset).1.isRunning = false ∧
    ((SessionTimer.make 25).reset).1.intervalActive = false ∧
    ((SessionTimer.make 25).reset).1.duration = (SessionTimer.make 25).duration ∧
    Event.display (SessionTimer.make 25).duration ∈ ((SessionTimer.make 25).reset).2 :=
  reset_restores_duration (SessionTimer.make 25) (fun h => absurd h (by decide))

/-- Claim C4: `pause()` followed by `start()` resumes from the paused
`remaining`: the composite leaves `remaining` and `duration` unchanged
and only raises the running flag (and re-schedules the interval);
`start()` alone also never touches `remaining` or `duration`; and the
next tick then counts down from the preserved value. -/
theorem pause_start_resumes (s : SessionTimer) :
    (((s.pause).1.start).1.remaining = s.remaining) ∧
    (((s.pause).1.start).1.duration = s.duration) ∧
    (((s.pause).1.start).1.isRunning = true) ∧
    ((s.start).1.remaining = s.remaining) ∧
    ((s.start).1.duration = s.duration) ∧
    ((((s.pause).1.start).1.tick).1.remaining = s.remaining - 1) := by
  have hps : ((s.pause).1.start).1 =
      { s with isRunning := true, intervalActive := true, intervalSet := true } := by
    unfold SessionTimer.pause SessionTimer.start
    by_cases hset : s.intervalSet <;> simp [hset]
  refine ⟨by rw [hps], by rw [hps], by rw [hps], ?_, ?_, ?_⟩
  · unfold SessionTimer.start
    by_cases hrun : s.isRunning <;> simp [hrun]
  · unfold SessionTimer.start
    by_cases hrun : s.isRunning <;> simp [hrun]
  · rw [hps, tick_remaining]

/-- Claim C5: invalid transitions are state no-ops, not errors:
`start()` while already running changes nothing at all (same state, no
events, hence no second interval is scheduled), and `pause()` while not
running leaves the state unchanged. -/
theorem invalid_transitions_noop (s : SessionTimer) :
    (s.isRunning = true → s.start = (s, [])) ∧
    (s.isRunning = false → s.intervalActive = false → (s.pause).1 = s) := by
  constructor
  · intro hrun
    unfold SessionTimer.start
    rw [if_pos hrun]
  · intro hrun hact
    rcases s with ⟨d, r, run, act, iset⟩
    simp only at hrun hact
    subst hrun
    subst hact
    unfold SessionTimer.pause
    by_cases h2 : iset <;> simp [h2]

/-- Witness for C5: `start()` in the running state reached by one start
from a fresh 1-minute timer is the identity, and `pause()` on the fresh
(idle) timer is the identity on the state. -/
theorem invalid_transitions_noop_witness :
    ((runTrace (SessionTimer.make 1) [TimerOp.start]).1.start
        = ((runTrace (SessionTimer.make 1) [TimerOp.start]).1, [])) ∧
    (((SessionTimer.make 1).pause).1 = SessionTimer.make 1) :=
  ⟨(invalid_transitions_noop (runTrace (SessionTimer.make 1) [TimerOp.start]).1).1 (by decide),
   (invalid_transitions_noop (SessionTimer.make 1)).2 (by decide) (by decide)⟩

/-- Claim C7 (code bug): the periodic reminder loop is not actually
throttled to 30 minutes.  `shouldShowReminder` does implement the
30-minute check against a stored `lastReminderTime`, but no code ever
writes that key, so with the key absent every 15-minute firing shows a
reminder: two reminders 15 minutes apart, contradicting the claimed
30-minute minimum spacing. -/
theorem reminders_not_throttled :
    reminderShownTimes none [900000, 1800000] = [900000, 1800000] ∧
    (1800000 : Int) - 900000 < 30 * 60 * 1000 ∧
    shouldShowReminder (some 0) 900000 = false ∧
    shouldShowReminder (some 0) 1900000 = true := by
  decide

/-- Claim C8: the global AJAX error handler maps 401, 403 and 500 to
their fixed notifications and produces none for any other status. -/
theorem ajaxError_status_mapping (status : Int) :
    ajaxErrorNotification 401 = some ("Please log in to continue", NotifLevel.warning) ∧
    ajaxErrorNotification 403 = some ("You don\x27t have permission to do that", NotifLevel.danger) ∧
    ajaxErrorNotification 500 = some ("Server error. Please try again later.", NotifLevel.danger) ∧
    (status ≠ 401 → status ≠ 403 → status ≠ 500 → ajaxErrorNotification status = none) := by
  refine ⟨rfl, rfl, rfl, fun h1 h3 h5 => ?_⟩
  simp only [ajaxErrorNotification, if_neg h1, if_neg h3, if_neg h5]

/-- Witness for C8 at status 404: not one of the handled statuses, no
notification. -/
theorem ajaxError_status_mapping_witness :
    (404 : Int) ≠ 401 ∧ (404 : Int) ≠ 403 ∧ (404 : Int) ≠ 500 ∧
    ajaxErrorNotification 404 = none :=
  ⟨by decide, by decide, by decide,
   (ajaxError_status_mapping 404).2.2.2 (by decide) (by decide) (by decide)⟩

/-- Claim C9: mood and gentle-mode round-trip verbatim through local
storage: `saveMood m` stores `m` unchanged under `lastMood` and the
subsequent load reads back exactly `m`; the flag written by
`toggleGentleMode` (the negation of the old flag) is read back as the
same boolean by the constructor read. -/
theorem storage_roundtrip_verbatim (mood nowIso : String) (st : Store) (g : Bool) :
    loadLastMood (saveMood mood nowIso st) = some mood ∧
    (toggleGentleMode g st).1 = !g ∧
    readGentleMode (toggleGentleMode g st).2 = (toggleGentleMode g st).1 := by
  refine ⟨?_, rfl, ?_⟩
  · simp [loadLastMood, saveMood, getItem, setItem]
  · cases g <;> simp [toggleGentleMode, readGentleMode, getItem, setItem, jsBoolString]

/-- Claim C10: `updateProgressBar` clamps both bars at 100: from any
starting values in [0, 100] the updated per-activity and overall values
stay in [0, 100]. -/
theorem updateProgressBar_clamped (c d : Int)
    (hc0 : 0 ≤ c) (hc1 : c ≤ 100) (hd0 : 0 ≤ d) (hd1 : d ≤ 100) :
    0 ≤ updatedActivityProgress c ∧ updatedActivityProgress c ≤ 100 ∧
    0 ≤ updatedOverallProgress d ∧ updatedOverallProgress d ≤ 100 := by
  unfold updatedActivityProgress updatedOverallProgress
  omega

/-- Witness for C10 at per-activity 90 and overall 99. -/
theorem updateProgressBar_clamped_witness :
    (0 : Int) ≤ 90 ∧ (90 : Int) ≤ 100 ∧ (0 : Int) ≤ 99 ∧ (99 : Int) ≤ 100 ∧
    (0 ≤ updatedActivityProgress 90 ∧ updatedActivityProgress 90 ≤ 100 ∧
     0 ≤ updatedOverallProgress 99 ∧ updatedOverallProgress 99 ≤ 100) :=
  ⟨by decide, by decide, by decide, by decide,
   updateProgressBar_clamped 90 99 (by decide) (by decide) (by decide) (by decide)⟩

/-! ## Claims about the countdown -/

/-- Claim C1: starting a fresh (or freshly reset) timer and delivering
`n` consecutive ticks while it runs leaves
`remaining = max 0 (duration - n)`; along any such run `remaining` stays
within `0 ≤ remaining ≤ duration` (the `k ≤ n` prefix states), and each
tick decrements `remaining` by exactly 1. -/
theorem sessionTimer_countdown (s : SessionTimer) (n k : Nat)
    (hfresh : s.remaining = s.duration) (hidle : s.isRunning = false)
    (hdur : 1 ≤ s.duration)
    (hvalid : validTrace s (TimerOp.start :: List.replicate n TimerOp.tick) = true)
    (hk : k ≤ n) :
    (runTrace s (TimerOp.start :: List.replicate n TimerOp.tick)).1.remaining
      = max 0 (s.duration - (n : Int)) ∧
    0 ≤ (runTrace s (TimerOp.start :: List.replicate k TimerOp.tick)).1.remaining ∧
    (runTrace s (TimerOp.start :: List.replicate k TimerOp.tick)).1.remaining ≤ s.duration ∧
    ((runTrace s (TimerOp.start :: List.replicate k TimerOp.tick)).1.tick).1.remaining
      = (runTrace s (TimerOp.start :: List.replicate k TimerOp.tick)).1.remaining - 1 := by
  have hstart : s.start =
      ({ duration := s.duration, remaining := s.duration, isRunning := true,
         intervalActive := true, intervalSet := true },
       [Event.notifStarted]) := by
    unfold SessionTimer.start
    rw [if_neg (by simp [hidle])]
    simp [hfresh]
  rw [validTrace_cons_start, hstart] at hvalid
  have hbound := replicate_tick_bound n
    { duration := s.duration, remaining := s.duration, isRunning := true,
      intervalActive := true, intervalSet := true }
    rfl rfl (by simp; omega) hvalid
  simp only at hbound
  have hkn : (k : Int) ≤ s.duration := by
    have : (k : Int) ≤ (n : Int) := by exact_mod_cast hk
    omega
  have hrunN := run_replicate_tick n
    { duration := s.duration, remaining := s.duration, isRunning := true,
      intervalActive := true, intervalSet := true }
    rfl rfl rfl (by simp; omega) (by simp only; exact hbound)
  have hrunK := run_replicate_tick k
    { duration := s.duration, remaining := s.duration, isRunning := true,
      intervalActive := true, intervalSet := true }
    rfl rfl rfl (by simp; omega) (by simp only; exact hkn)
  simp only at hrunN hrunK
  refine ⟨?_, ?_, ?_, ?_⟩
  · rw [runTrace_cons]
    simp only [step, hstart]
    rw [hrunN.2.2.1]
    rw [max_eq_right (by omega)]
  · rw [runTrace_cons]
    simp only [step, hstart]
    rw [hrunK.2.2.1]
    omega
  · rw [runTrace_cons]
    simp only [step, hstart]
    rw [hrunK.2.2.1]
    omega
  · rw [tick_remaining]

/-- Witness for C1: the fresh 1-minute timer, started, with 3 ticks
delivered (prefix length 2). -/
theorem sessionTimer_countdown_witness :
    (SessionTimer.make 1).remaining = (SessionTimer.make 1).duration ∧
    (SessionTimer.make 1).isRunning = false ∧
    1 ≤ (SessionTimer.make 1).duration ∧
    validTrace (SessionTimer.make 1)
      (TimerOp.start :: List.replicate 3 TimerOp.tick) = true ∧
    2 ≤ 3 ∧
    ((runTrace (SessionTimer.make 1)
        (TimerOp.start :: List.replicate 3 TimerOp.tick)).1.remaining
      = max 0 ((SessionTimer.make 1).duration - ((3 : Nat) : Int)) ∧
     0 ≤ (runTrace (SessionTimer.make 1)
        (TimerOp.start :: List.replicate 2 TimerOp.tick)).1.remaining ∧
     (runTrace (SessionTimer.make 1)
        (TimerOp.start :: List.replicate 2 TimerOp.tick)).1.remaining
      ≤ (SessionTimer.make 1).duration ∧
     ((runTrace (SessionTimer.make 1)
        (TimerOp.start :: List.replicate 2 TimerOp.tick)).1.tick).1.remaining
      = (runTrace (SessionTimer.make 1)
        (TimerOp.start :: List.replicate 2 TimerOp.tick)).1.remaining - 1) :=
  ⟨by decide, by decide, by decide, by decide, by decide,
   sessionTimer_countdown (SessionTimer.make 1) 3 2
     (by decide) (by decide) (by decide) (by decide) (by decide)⟩

/-- Claim C2 (amended): the tick that brings `remaining` to 0 fires the
completion side effect exactly once for the whole run, leaves the timer
not running with the interval cleared, and no further tick is
schedulable without another `start()`: the full-duration run is the
longest schedulable tick-only run.  (The original claim's "for every
sequence of start/pause/reset/tick operations" fails: `start()` from the
Completed state restarts ticking and completion fires again — see the
counterexample.) -/
theorem sessionTimer_completes_once_and_stops (s : SessionTimer) (d : Nat)
    (hfresh : s.remaining = s.duration) (hidle : s.isRunning = false)
    (hdur : s.duration = (d : Int)) (hd1 : 1 ≤ d) :
    validTrace s (TimerOp.start :: List.replicate d TimerOp.tick) = true ∧
    (runTrace s (TimerOp.start :: List.replicate d TimerOp.tick)).1.remaining = 0 ∧
    (runTrace s (TimerOp.start :: List.replicate d TimerOp.tick)).1.isRunning = false ∧
    (runTrace s (TimerOp.start :: List.replicate d TimerOp.tick)).1.intervalActive = false ∧
    completions (runTrace s (TimerOp.start :: List.replicate d TimerOp.tick)).2 = 1 ∧
    validTrace s (TimerOp.start :: List.replicate (d + 1) TimerOp.tick) = false := by
  have hstart : s.start =
      ({ duration := s.duration, remaining := s.duration, isRunning := true,
         intervalActive := true, intervalSet := true },
       [Event.notifStarted]) := by
    unfold SessionTimer.start
    rw [if_neg (by simp [hidle])]
    simp [hfresh]
  have hrunD := run_replicate_tick d
    { duration := s.duration, remaining := s.duration, isRunning := true,
      intervalActive := true, intervalSet := true }
    rfl rfl rfl (by simp [hdur]; omega) (by simp [hdur])
  simp only at hrunD
  obtain ⟨hv, _, hr, hrun2, hact2, _, hc⟩ := hrunD
  refine ⟨?_, ?_, ?_, ?_, ?_, ?_⟩
  · rw [validTrace_cons_start, hstart]
    exact hv
  · rw [runTrace_cons]
    simp only [step, hstart]
    rw [hr, hdur]
    omega
  · rw [runTrace_cons]
    simp only [step, hstart]
    rw [hrun2, hdur]
    simp
  · rw [runTrace_cons]
    simp only [step, hstart]
    rw [hact2, hdur]
    simp
  · rw [runTrace_cons]
    simp only [step, hstart]
    unfold completions
    rw [List.countP_append]
    have h0 : List.countP isCompleteEvent (s.start).2 = 0 := by
      rw [hstart]
      simp [List.countP_cons, List.countP_nil, isCompleteEvent]
    rw [hstart] at h0
    rw [h0]
    unfold completions at hc
    rw [hc, if_pos (by rw [hdur])]
  · rcases hcase : validTrace s (TimerOp.start :: List.replicate (d + 1) TimerOp.tick) with _ | _
    · rfl
    · exfalso
      rw [validTrace_cons_start, hstart] at hcase
      have hb := replicate_tick_bound (d + 1)
        { duration := s.duration, remaining := s.duration, isRunning := true,
          intervalActive := true, intervalSet := true }
        rfl rfl (by simp [hdur]; omega) hcase
      simp only [hdur] at hb
      push_cast at hb
      omega

/-- Witness for C2 (amended) at the fresh 1-minute timer and its full
60-tick run. -/
theorem sessionTimer_completes_once_and_stops_witness :
    (SessionTimer.make 1).remaining = (SessionTimer.make 1).duration ∧
    (SessionTimer.make 1).isRunning = false ∧
    (SessionTimer.make 1).duration = ((60 : Nat) : Int) ∧
    1 ≤ 60 ∧
    (validTrace (SessionTimer.make 1)
        (TimerOp.start :: List.replicate 60 TimerOp.tick) = true ∧
     (runTrace (SessionTimer.make 1)
        (TimerOp.start :: List.replicate 60 TimerOp.tick)).1.remaining = 0 ∧
     (runTrace (SessionTimer.make 1)
        (TimerOp.start :: List.replicate 60 TimerOp.tick)).1.isRunning = false ∧
     (runTrace (SessionTimer.make 1)
        (TimerOp.start :: List.replicate 60 TimerOp.tick)).1.intervalActive = false ∧
     completions (runTrace (SessionTimer.make 1)
        (TimerOp.start :: List.replicate 60 TimerOp.tick)).2 = 1 ∧
     validTrace (SessionTimer.make 1)
        (TimerOp.start :: List.replicate (60 + 1) TimerOp.tick) = false) :=
  ⟨by decide, by decide, by decide, by decide,
   sessionTimer_completes_once_and_stops (SessionTimer.make 1) 60
     (by decide) (by decide) (by decide) (by decide)⟩

/-- Counterexample to Claim C2 as frozen: on the fresh 1-minute timer
the operation sequence start, 60 ticks, start, tick is schedulable (the
second start re-arms the interval from the Completed state), a further
tick occurs after the state reached `remaining = 0` with
`running = false`, the completion notification fires twice over the
sequence, and `remaining` is driven to -1. -/
theorem sessionTimer_completion_refires :
    validTrace (SessionTimer.make 1)
      (TimerOp.start :: (List.replicate 60 TimerOp.tick ++ [TimerOp.start, TimerOp.tick]))
      = true ∧
    (runTrace (SessionTimer.make 1)
      (TimerOp.start :: List.replicate 60 TimerOp.tick)).1.remaining = 0 ∧
    (runTrace (SessionTimer.make 1)
      (TimerOp.start :: List.replicate 60 TimerOp.tick)).1.isRunning = false ∧
    completions (runTrace (SessionTimer.make 1)
      (TimerOp.start :: (List.replicate 60 TimerOp.tick ++ [TimerOp.start, TimerOp.tick]))).2
      = 2 ∧
    (runTrace (SessionTimer.make 1)
      (TimerOp.start :: (List.replicate 60 TimerOp.tick ++ [TimerOp.start, TimerOp.tick]))).1.remaining
      = -1 := by
  decide

/-! ## The display claim -/

/-- For numbers up to two digits, the code's `toString` + `padStart(2,
"0")` pipeline agrees with the spec's zero-padded two-digit format. -/
lemma jsPad_twoDigits : ∀ n : Nat, n ≤ 99 → jsPadStart2 (toString n) = twoDigitsSpec n := by
  decide

/-- Claim C6: the displayed time is the pure function `updateDisplayStr`
of `remaining` alone, equal to the spec's zero-padded `minutes:seconds`
format on the whole countdown range of the shipped 25-minute timer
(0 ≤ remaining ≤ 1500); `remaining = 0` renders as "00:00"; and the
initial text rendered by the construction-time markup agrees with the
display function at the initial `remaining`. -/
theorem updateDisplay_zero_padded (r : Nat) (hr : r ≤ 1500) :
    updateDisplayStr ((r : Nat) : Int) = displaySpec r ∧
    updateDisplayStr 0 = "00:00" ∧
    timerMarkupDisplay (SessionTimer.make 25).duration
      = updateDisplayStr (SessionTimer.make 25).remaining := by
  refine ⟨?_, by decide, by decide⟩
  have hmin : Int.fdiv ((r : Nat) : Int) 60 = ((r / 60 : Nat) : Int) := by
    rw [Int.fdiv_eq_ediv _ (by norm_num)]
    exact_mod_cast (Int.ofNat_ediv r 60).symm
  have hsec : jsRem60 ((r : Nat) : Int) = ((r % 60 : Nat) : Int) := by
    unfold jsRem60
    rw [if_pos (by exact_mod_cast Nat.zero_le r)]
    exact_mod_cast (Int.ofNat_emod r 60).symm
  unfold updateDisplayStr updateDisplayMinutes updateDisplaySeconds displaySpec
  rw [hmin, hsec]
  rw [show toString (((r / 60 : Nat)) : Int) = toString (r / 60) from rfl,
      show toString (((r % 60 : Nat)) : Int) = toString (r % 60) from rfl]
  rw [jsPad_twoDigits (r / 60) (by omega), jsPad_twoDigits (r % 60) (by omega)]

/-- Witness for C6 at `remaining = 65` (renders as "01:05"). -/
theorem updateDisplay_zero_padded_witness :
    (65 : Nat) ≤ 1500 ∧
    (updateDisplayStr (((65 : Nat) : Nat) : Int) = displaySpec 65 ∧
     updateDisplayStr 0 = "00:00" ∧
     timerMarkupDisplay (SessionTimer.make 25).duration
       = updateDisplayStr (SessionTimer.make 25).remaining) :=
  ⟨by decide, updateDisplay_zero_padded 65 (by decide)⟩
